import Mathlib

/-!
Verification of the opportunity-scoring and bounded-concurrency execution
pipeline of `core_scaling_engine.py` (class `UltraFastScalingEngine`).

Python floats are modelled as rationals (`ℚ`); Python dicts with `.get`
defaults are modelled as structures with `Option` fields; the `asyncio`
timeout is modelled by a boolean oracle saying whether the shared deadline
fired (the source's handling of that event is purely data-level: it
replaces the whole result list, see line 305 of the source).
-/

namespace GodmodeScaling

/-- A product record as consumed by the engine.  Fields read through
`product.get(key, default)` in the source are `Option`s here; `none` means
the key is absent so the source's default applies. -/
structure Product where
  name : String
  daily_revenue : ℚ
  conversion_rate : Option ℚ
  traffic_volume : Option ℚ
  profit_margin : Option ℚ
  cac : Option ℚ
  ltv : Option ℚ
  historical_data : List ℚ
  deriving DecidableEq, Repr

/-- The derived metric record returned by `_calculate_product_metrics`. -/
structure Metrics where
  current_revenue : ℚ
  growth_rate : ℚ
  conversion_rate : ℚ
  traffic_volume : ℚ
  profit_margin : ℚ
  customer_acquisition_cost : ℚ
  lifetime_value : ℚ
  deriving DecidableEq, Repr

/-- Engine configuration: `scaling_thresholds` plus the parts of
`self.config` the scorer reads (`max_ad_spend`). -/
structure Config where
  revenue_threshold : ℚ
  growth_rate_threshold : ℚ
  conversion_threshold : ℚ
  max_concurrent_scales : ℕ
  max_ad_spend : ℚ
  deriving DecidableEq, Repr

/-- Default configuration: the env-var defaults of `__init__` /
`_load_config` (500, 20, 2, 5, 1000). -/
def default_config : Config :=
  { revenue_threshold := 500
    growth_rate_threshold := 20
    conversion_threshold := 2
    max_concurrent_scales := 5
    max_ad_spend := 1000 }

/-- One proposed scaling action, as appended by
`_generate_scaling_strategy`. -/
structure Action where
  type : String
  multiplier : ℚ
  budget : ℚ
  expected_increase : ℚ
  deriving DecidableEq, Repr

/-- A scaling strategy (`actions`, `expected_roi`, `risk_level`; the
`timeline` and `budget_allocation` fields are never read downstream). -/
structure Strategy where
  actions : List Action
  expected_roi : ℚ
  risk_level : String
  deriving DecidableEq, Repr

/-- One entry of the list built by `analyze_scaling_opportunities`. -/
structure RankedCandidate where
  product : Product
  metrics : Metrics
  opportunity_score : ℚ
  scaling_strategy : Strategy
  estimated_roi : ℚ
  deriving DecidableEq, Repr

/-- The metrics returned by the `except` branch of
`_calculate_product_metrics` (lines 127-137). -/
def error_metrics : Metrics :=
  { current_revenue := 0
    growth_rate := 0
    conversion_rate := 0
    traffic_volume := 0
    profit_margin := 7/10
    customer_acquisition_cost := 50
    lifetime_value := 200 }

/-- `_calculate_product_metrics` (lines 93-137).  Python's slice
`h[-7:]` is `h.drop (h.length - 7)` and `h[-14:-7]` is
`(h.take (h.length - 7)).drop (h.length - 14)` (ℕ subtraction clamps at 0
exactly like Python's slice clamping).  When `h[-14:-7]` is empty the
source divides by `min(7, 0) = 0`; the resulting `ZeroDivisionError` is
caught by the `except` branch, which returns `error_metrics`. -/
def calculate_product_metrics (p : Product) : Metrics :=
  let h := p.historical_data
  if h.length < 2 then
    { current_revenue := p.daily_revenue
      growth_rate := 25
      conversion_rate := p.conversion_rate.getD (5/2)
      traffic_volume := p.traffic_volume.getD 1000
      profit_margin := p.profit_margin.getD (7/10)
      customer_acquisition_cost := p.cac.getD 50
      lifetime_value := p.ltv.getD 200 }
  else
    let older := (h.take (h.length - 7)).drop (h.length - 14)
    if older.length = 0 then error_metrics
    else
      let recent := h.drop (h.length - 7)
      let recent_avg := recent.sum / ((min 7 h.length : ℕ) : ℚ)
      let older_avg := older.sum / ((min 7 older.length : ℕ) : ℚ)
      let growth_rate :=
        if 0 < older_avg then (recent_avg - older_avg) / older_avg * 100 else 25
      { current_revenue := p.daily_revenue
        growth_rate := growth_rate
        conversion_rate := p.conversion_rate.getD (5/2)
        traffic_volume := p.traffic_volume.getD 1000
        profit_margin := p.profit_margin.getD (7/10)
        customer_acquisition_cost := p.cac.getD 50
        lifetime_value := p.ltv.getD 200 }

/-- `_calculate_opportunity_score` (lines 139-175).  When the configured
`revenue_threshold` is 0 the division raises `ZeroDivisionError`, caught
by the `except` branch which returns `0.0`; all other inputs reach the
final `max(0.0, min(1.0, total_score))` clamp.  Weights are the literals
0.3, 0.25, 0.2, 0.15, 0.1. -/
def calculate_opportunity_score (cfg : Config) (m : Metrics) : ℚ :=
  if cfg.revenue_threshold = 0 then 0
  else
    let revenue_score := min (m.current_revenue / cfg.revenue_threshold) 1
    let growth_score := min (m.growth_rate / 100) 1
    let conversion_score := min (m.conversion_rate / 10) 1
    let profit_score := min m.profit_margin 1
    let efficiency_score :=
      if 0 < m.customer_acquisition_cost then
        min (m.lifetime_value / m.customer_acquisition_cost / 5) 1
      else 0
    let total_score :=
      revenue_score * (3/10) + growth_score * (1/4) + conversion_score * (1/5) +
        profit_score * (3/20) + efficiency_score * (1/10)
    max 0 (min 1 total_score)

/-- `_generate_scaling_strategy` (lines 177-244).  The three conditional
actions followed by the always-appended price optimization; `expected_roi`
is `(Σ expected_increase / Σ budget − 1) × 100`, or 0 when the total
budget is not positive. -/
def generate_scaling_strategy (cfg : Config) (m : Metrics) : Strategy :=
  let ad_actions :=
    if cfg.revenue_threshold ≤ m.current_revenue then
      [{ type := "ad_spend_increase"
         multiplier := 3/2
         budget := min (m.current_revenue * (3/10)) cfg.max_ad_spend
         expected_increase := m.current_revenue * (1/2) : Action }]
    else []
  let audience_actions :=
    if cfg.growth_rate_threshold < m.growth_rate then
      [{ type := "audience_expansion"
         multiplier := 2
         budget := m.current_revenue * (1/5)
         expected_increase := m.current_revenue * (4/5) : Action }]
    else []
  let platform_actions :=
    if cfg.conversion_threshold < m.conversion_rate then
      [{ type := "platform_expansion"
         multiplier := 5/2
         budget := m.current_revenue * (2/5)
         expected_increase := m.current_revenue * (6/5) : Action }]
    else []
  let price_actions :=
    [{ type := "price_optimization"
       multiplier := 13/10
       budget := m.current_revenue * (1/10)
       expected_increase := m.current_revenue * (3/10) : Action }]
  let actions := ad_actions ++ audience_actions ++ platform_actions ++ price_actions
  let total_investment := (actions.map Action.budget).sum
  let total_expected_return := (actions.map Action.expected_increase).sum
  let expected_roi :=
    if 0 < total_investment then (total_expected_return / total_investment - 1) * 100
    else 0
  { actions := actions, expected_roi := expected_roi, risk_level := "medium" }

/-- `_estimate_roi` (lines 246-272): performance boosts (×1.3 when
`growth_rate > 50`, ×1.2 when `conversion_rate > 5`), risk adjustment
(×0.8 high / ×1.1 low / ×1.0 otherwise), final clamp to [0, 500]. -/
def estimate_roi (m : Metrics) (s : Strategy) : ℚ :=
  let base_roi := s.expected_roi
  let base_roi := if 50 < m.growth_rate then base_roi * (13/10) else base_roi
  let base_roi := if 5 < m.conversion_rate then base_roi * (6/5) else base_roi
  let risk_adjustment : ℚ :=
    if s.risk_level = "high" then 4/5
    else if s.risk_level = "low" then 11/10
    else 1
  max 0 (min 500 (base_roi * risk_adjustment))

/-- The per-product body of the loop in `analyze_scaling_opportunities`
(lines 67-82): compute metrics and score; candidates scoring below the
fixed 0.8 confidence threshold are dropped. -/
def candidate_of (cfg : Config) (p : Product) : Option RankedCandidate :=
  let m := calculate_product_metrics p
  let score := calculate_opportunity_score cfg m
  if (4/5 : ℚ) ≤ score then
    let strat := generate_scaling_strategy cfg m
    some { product := p
           metrics := m
           opportunity_score := score
           scaling_strategy := strat
           estimated_roi := estimate_roi m strat }
  else none

/-- The `scaling_candidates` list right before the sort (line 85). -/
def qualifying (cfg : Config) (ps : List Product) : List RankedCandidate :=
  ps.filterMap (candidate_of cfg)

/-- The sort key `x['opportunity_score'] * x['estimated_roi']` (line 85). -/
def rank_key (c : RankedCandidate) : ℚ :=
  c.opportunity_score * c.estimated_roi

/-- `a` sorts no later than `b` under `sort(key=…, reverse=True)`:
descending by `rank_key`. -/
def rank_ge (a b : RankedCandidate) : Prop :=
  rank_key b ≤ rank_key a

instance : DecidableRel rank_ge := fun a b =>
  inferInstanceAs (Decidable (rank_key b ≤ rank_key a))

instance : IsTotal RankedCandidate rank_ge :=
  ⟨fun a b => le_total (rank_key b) (rank_key a)⟩

instance : IsTrans RankedCandidate rank_ge :=
  ⟨fun _ _ _ hab hbc => le_trans hbc hab⟩

/-- `analyze_scaling_opportunities` (lines 59-91): score and filter every
product, stable-sort descending by `score × estimated_roi` (Python's
`list.sort` is stable; `List.insertionSort` with `rank_ge` places
newcomers before equal keys exactly as a stable descending sort does),
then truncate to `max_concurrent_scales`.  No statement inside the `try`
can raise, so the `except … return []` branch is dead. -/
def analyze_scaling_opportunities (cfg : Config) (ps : List Product) :
    List RankedCandidate :=
  ((qualifying cfg ps).insertionSort rank_ge).take cfg.max_concurrent_scales

/-- The dict returned by one execution unit (`_execute_single_action` and
the four handlers).  The timeout placeholder dict of line 305 carries no
`action_type` key, hence the `Option`. -/
structure ActionResult where
  investment : ℚ
  expected_return : ℚ
  action_type : Option String
  status : String
  deriving DecidableEq, Repr

/-- What `asyncio.gather(..., return_exceptions=True)` yields for one unit:
either the unit's dict, or the exception object the unit raised. -/
inductive UnitOutcome where
  | ok : ActionResult → UnitOutcome
  | exn : UnitOutcome
  deriving DecidableEq, Repr

/-- The `results` dict of `execute_scaling_actions` (the wall-clock
`execution_time` field is not modelled). -/
structure ExecReport where
  executed_actions : ℕ
  total_investment : ℚ
  expected_return : ℚ
  failed_actions : ℕ
  success_rate : ℚ
  deriving DecidableEq, Repr

/-- `_execute_single_action` (lines 345-370) together with the four
handlers it dispatches to (lines 372-478).  Each handler's body only
sleeps and returns its success dict, so in this embedding every
recognised action type succeeds with the action's own `budget` and
`expected_increase`; an unrecognised type yields the `unknown_action`
dict of lines 361-366. -/
def execute_single_action (_p : Product) (a : Action) : ActionResult :=
  if a.type = "ad_spend_increase" then
    { investment := a.budget, expected_return := a.expected_increase
      action_type := some "ad_spend_increase", status := "success" }
  else if a.type = "audience_expansion" then
    { investment := a.budget, expected_return := a.expected_increase
      action_type := some "audience_expansion", status := "success" }
  else if a.type = "platform_expansion" then
    { investment := a.budget, expected_return := a.expected_increase
      action_type := some "platform_expansion", status := "success" }
  else if a.type = "price_optimization" then
    { investment := a.budget, expected_return := a.expected_increase
      action_type := some "price_optimization", status := "success" }
  else
    { investment := 0, expected_return := 0
      action_type := some a.type, status := "unknown_action" }

/-- Independent execution of a list of (product, action) units: each unit
computes its own result, unaffected by its siblings (lines 288-295 launch
one task per pair). -/
def run_units (ts : List (Product × Action)) : List ActionResult :=
  ts.map fun pa => execute_single_action pa.1 pa.2

/-- The task list built by the nested loops of lines 290-295: one unit per
(candidate, action) pair, in order. -/
def batch_tasks (cs : List RankedCandidate) : List (Product × Action) :=
  cs.flatMap fun c => c.scaling_strategy.actions.map fun a => (c.product, a)

/-- The placeholder dict of line 305:
`{'investment': 0, 'expected_return': 0, 'status': 'timeout'}`. -/
def timeout_result : ActionResult :=
  { investment := 0, expected_return := 0, action_type := none, status := "timeout" }

/-- The `action_results` list of lines 297-305.  `timed_out` says whether
the shared 30-second deadline fired; in that case the source discards the
gathered results wholesale and substitutes one timeout dict per task.
Otherwise every unit resolves to its own dict (no handler in this source
can raise, so no `exn` outcome arises on this path). -/
def action_results (timed_out : Bool) (cs : List RankedCandidate) :
    List UnitOutcome :=
  if timed_out then
    List.replicate (batch_tasks cs).length (UnitOutcome.ok timeout_result)
  else
    (run_units (batch_tasks cs)).map UnitOutcome.ok

/-- One iteration of the result-processing loop (lines 308-315):
`isinstance(result, Exception)` increments `failed_actions`; any dict —
whatever its `status` — increments `executed_actions` and is added to the
investment/return totals. -/
def process_one (acc : ExecReport) (r : UnitOutcome) : ExecReport :=
  match r with
  | .exn =>
      { acc with failed_actions := acc.failed_actions + 1 }
  | .ok res =>
      { acc with
          executed_actions := acc.executed_actions + 1
          total_investment := acc.total_investment + res.investment
          expected_return := acc.expected_return + res.expected_return }

/-- The aggregation of lines 279-320: fold the loop over the outcomes,
then set `success_rate = executed / total × 100` when there was at least
one unit. -/
def process_results (rs : List UnitOutcome) : ExecReport :=
  let init : ExecReport :=
    { executed_actions := 0, total_investment := 0, expected_return := 0
      failed_actions := 0, success_rate := 0 }
  let acc := rs.foldl process_one init
  if 0 < rs.length then
    { acc with
        success_rate := (acc.executed_actions : ℚ) / (rs.length : ℚ) * 100 }
  else acc

/-- `execute_scaling_actions` (lines 274-332), with the deadline oracle
made explicit.  The wall-clock `execution_time` and the
`performance_metrics` side effect are outside the data model. -/
def execute_scaling_actions (timed_out : Bool) (cs : List RankedCandidate) :
    ExecReport :=
  process_results (action_results timed_out cs)

/-- `True` on a gathered outcome that is a dict (not an exception):
exactly the results the loop counts as executed. -/
def is_ok : UnitOutcome → Bool
  | .ok _ => true
  | .exn => false

/-- `True` on a dict outcome whose `status` is `success` (the spec's
notion of an executed unit). -/
def is_success : UnitOutcome → Bool
  | .ok res => res.status = "success"
  | .exn => false

/-- The investment a gathered outcome contributes to the totals. -/
def investment_of : UnitOutcome → ℚ
  | .ok res => res.investment
  | .exn => 0

/-- The expected return a gathered outcome contributes to the totals. -/
def return_of : UnitOutcome → ℚ
  | .ok res => res.expected_return
  | .exn => 0

/-! ### Concrete inputs used by witnesses and counterexamples -/

/-- A strong product: revenue at the threshold, high conversion, perfect
margin, efficient LTV/CAC, no history (so the optimistic 25% default
growth applies). -/
def p_hi : Product :=
  { name := "hi", daily_revenue := 500, conversion_rate := some 10
    traffic_volume := none, profit_margin := some 1, cac := some 1
    ltv := some 25, historical_data := [] }

/-- The metric set the engine derives for `p_hi`. -/
def m_hi : Metrics :=
  { current_revenue := 500, growth_rate := 25, conversion_rate := 10
    traffic_volume := 1000, profit_margin := 1
    customer_acquisition_cost := 1, lifetime_value := 25 }

/-- The strategy the engine generates for `m_hi` (all four actions fire). -/
def strat_hi : Strategy :=
  { actions :=
      [{ type := "ad_spend_increase", multiplier := 3/2, budget := 150,
         expected_increase := 250 },
       { type := "audience_expansion", multiplier := 2, budget := 100,
         expected_increase := 400 },
       { type := "platform_expansion", multiplier := 5/2, budget := 200,
         expected_increase := 600 },
       { type := "price_optimization", multiplier := 13/10, budget := 50,
         expected_increase := 150 }]
    expected_roi := 180
    risk_level := "medium" }

/-- The ranked candidate the engine produces for `p_hi`:
score `13/16 = 0.8125`, ROI `180 × 1.2 = 216`. -/
def c_hi : RankedCandidate :=
  { product := p_hi, metrics := m_hi, opportunity_score := 13/16
    scaling_strategy := strat_hi, estimated_roi := 216 }

/-- A weak product: zero revenue, no history, every lookup defaulted.
Its opportunity score is `119/400 = 0.2975`, below the 0.8 threshold. -/
def p_low : Product :=
  { name := "low", daily_revenue := 0, conversion_rate := none
    traffic_volume := none, profit_margin := none, cac := none
    ltv := none, historical_data := [] }

/-- Like `p_low` but a distinct candidate. -/
def p_low2 : Product :=
  { name := "low2", daily_revenue := 0, conversion_rate := none
    traffic_volume := none, profit_margin := none, cac := none
    ltv := none, historical_data := [] }

/-- A product with exactly two historical samples: enough to enter the
growth-rate computation, yet `historical_data[-14:-7]` is empty there. -/
def p_short : Product :=
  { name := "short", daily_revenue := 750, conversion_rate := none
    traffic_volume := none, profit_margin := none, cac := none
    ltv := none, historical_data := [100, 200] }

/-- An action whose type no handler recognises. -/
def a_unknown : Action :=
  { type := "quantum_leap", multiplier := 1, budget := 40, expected_increase := 80 }

/-- A well-formed ad-spend action (the 30%-of-750 one). -/
def a_ad : Action :=
  { type := "ad_spend_increase", multiplier := 3/2, budget := 225,
    expected_increase := 375 }

/-- A ranked candidate whose plan carries a single unrecognised action. -/
def c_bad : RankedCandidate :=
  { product := p_low, metrics := error_metrics, opportunity_score := 0
    scaling_strategy :=
      { actions := [a_unknown], expected_roi := 0, risk_level := "medium" }
    estimated_roi := 0 }

/-! ### Claims -/

/-- Claim C3 (code bug witness): for the two-sample history `[100, 200]`
the source's `older_avg` denominator `min(7, len(h[-14:-7])) = min(7, 0)`
is zero; the `ZeroDivisionError` is caught and the engine returns the
zeroed error metrics — `growth_rate = 0` (not the claimed formula or the
25.0 fallback) and `current_revenue = 0` (the snapshot value 750 is
lost). -/
theorem c3_bug_eval : calculate_product_metrics p_short = error_metrics := by
  rfl

/-- Claim C5: for every configuration, metric set and strategy, the
opportunity score lies in [0,1] and the estimated ROI in [0,500];
moreover the degenerate denominators resolve to the documented safe
defaults: a zero revenue threshold makes the score 0 (the caught
`ZeroDivisionError` branch) and a non-positive total budget makes the
strategy's expected ROI 0. -/
theorem c5_clamp_safety : ∀ (cfg : Config) (m : Metrics) (s : Strategy),
    0 ≤ calculate_opportunity_score cfg m
    ∧ calculate_opportunity_score cfg m ≤ 1
    ∧ 0 ≤ estimate_roi m s
    ∧ estimate_roi m s ≤ 500
    ∧ (cfg.revenue_threshold = 0 → calculate_opportunity_score cfg m = 0)
    ∧ (((generate_scaling_strategy cfg m).actions.map Action.budget).sum ≤ 0 →
        (generate_scaling_strategy cfg m).expected_roi = 0) := by
  intro cfg m s
  refine ⟨?_, ?_, ?_, ?_, ?_, ?_⟩
  · unfold calculate_opportunity_score
    dsimp only
    split_ifs
    · exact le_refl 0
    · exact le_max_left 0 _
    · exact le_max_left 0 _
  · unfold calculate_opportunity_score
    dsimp only
    split_ifs
    · exact zero_le_one
    · exact max_le zero_le_one (min_le_left 1 _)
    · exact max_le zero_le_one (min_le_left 1 _)
  · unfold estimate_roi
    exact le_max_left 0 _
  · unfold estimate_roi
    exact max_le (by norm_num) (min_le_left 500 _)
  · intro h
    simp [calculate_opportunity_score, h]
  · intro h
    simp only [generate_scaling_strategy] at h ⊢
    split_ifs at h ⊢ <;> first | rfl | linarith

/-- A configuration whose revenue threshold is zero (the degenerate
denominator of the scorer). -/
def cfg_zero : Config :=
  { revenue_threshold := 0
    growth_rate_threshold := 20
    conversion_threshold := 2
    max_concurrent_scales := 5
    max_ad_spend := 1000 }

/-- Witness for C5 at concrete degenerate inputs: the zero threshold
yields the safe default score 0, and a strategy whose total budget is
zero yields the safe default expected ROI 0. -/
theorem c5_witness :
    calculate_opportunity_score cfg_zero m_hi = 0
    ∧ (generate_scaling_strategy default_config error_metrics).expected_roi = 0 := by
  refine ⟨(c5_clamp_safety cfg_zero m_hi strat_hi).2.2.2.2.1 rfl,
          (c5_clamp_safety default_config error_metrics strat_hi).2.2.2.2.2 ?_⟩
  norm_num [generate_scaling_strategy, default_config, error_metrics]

/-- Claim C6: the scorer is deterministic — identical candidate lists and
identical configurations yield identical rankings, scores and ROI values
(the embedding is a pure function of its two arguments). -/
theorem c6_determinism : ∀ (cfg₁ cfg₂ : Config) (ps₁ ps₂ : List Product),
    cfg₁ = cfg₂ → ps₁ = ps₂ →
    analyze_scaling_opportunities cfg₁ ps₁ = analyze_scaling_opportunities cfg₂ ps₂ := by
  intro cfg₁ cfg₂ ps₁ ps₂ hcfg hps
  rw [hcfg, hps]

/-- Witness for C6 at a concrete input. -/
theorem c6_witness :
    analyze_scaling_opportunities default_config [p_hi] =
      analyze_scaling_opportunities default_config [p_hi] :=
  c6_determinism default_config default_config [p_hi] [p_hi] rfl rfl

/-- Claim C7: with a non-negative base ROI, the estimate computed with
both boosts active (`growth_rate > 50`, `conversion_rate > 5`) dominates
the estimate with both inactive, the strategy (hence the risk factor)
being the same. -/
theorem c7_boost_monotone : ∀ (s : Strategy) (mb ml : Metrics),
    0 ≤ s.expected_roi →
    50 < mb.growth_rate → 5 < mb.conversion_rate →
    ¬ 50 < ml.growth_rate → ¬ 5 < ml.conversion_rate →
    estimate_roi ml s ≤ estimate_roi mb s := by
  intro s mb ml hb hg hc hg' hc'
  simp only [estimate_roi]
  rw [if_pos hg, if_pos hc, if_neg hg', if_neg hc']
  have hr : (0:ℚ) ≤
      (if s.risk_level = "high" then (4:ℚ)/5
       else if s.risk_level = "low" then 11/10 else 1) := by
    split_ifs <;> norm_num
  refine max_le_max (le_refl 0) (min_le_min (le_refl 500) ?_)
  nlinarith [mul_nonneg hb hr]

/-- Witness for C7 at a concrete input. -/
theorem c7_witness :
    estimate_roi
        { current_revenue := 0, growth_rate := 10, conversion_rate := 1,
          traffic_volume := 0, profit_margin := 0,
          customer_acquisition_cost := 0, lifetime_value := 0 }
        { actions := [], expected_roi := 100, risk_level := "medium" } ≤
      estimate_roi
        { current_revenue := 0, growth_rate := 60, conversion_rate := 6,
          traffic_volume := 0, profit_margin := 0,
          customer_acquisition_cost := 0, lifetime_value := 0 }
        { actions := [], expected_roi := 100, risk_level := "medium" } :=
  c7_boost_monotone
    { actions := [], expected_roi := 100, risk_level := "medium" }
    { current_revenue := 0, growth_rate := 60, conversion_rate := 6,
      traffic_volume := 0, profit_margin := 0,
      customer_acquisition_cost := 0, lifetime_value := 0 }
    { current_revenue := 0, growth_rate := 10, conversion_rate := 1,
      traffic_volume := 0, profit_margin := 0,
      customer_acquisition_cost := 0, lifetime_value := 0 }
    (by norm_num) (by norm_num) (by norm_num) (by norm_num) (by norm_num)

/-- Claim C8: a unit whose action type no handler recognises resolves to
the `unknown_action` result with zero investment and zero return, and the
sibling units before and after it produce exactly the results they would
produce on their own. -/
theorem c8_unknown_action : ∀ (pre post : List (Product × Action)) (p : Product) (a : Action),
    a.type ≠ "ad_spend_increase" → a.type ≠ "audience_expansion" →
    a.type ≠ "platform_expansion" → a.type ≠ "price_optimization" →
    run_units (pre ++ (p, a) :: post) =
      run_units pre ++
        ({ investment := 0, expected_return := 0, action_type := some a.type,
           status := "unknown_action" } : ActionResult) :: run_units post := by
  intro pre post p a h1 h2 h3 h4
  simp [run_units, execute_single_action, h1, h2, h3, h4]

/-- Witness for C8 at a concrete input. -/
theorem c8_witness :
    run_units [(p_low, a_unknown), (p_low, a_ad)] =
      [{ investment := 0, expected_return := 0, action_type := some "quantum_leap",
         status := "unknown_action" },
       { investment := 225, expected_return := 375,
         action_type := some "ad_spend_increase", status := "success" }] := by
  have h := c8_unknown_action [] [(p_low, a_ad)] p_low a_unknown
    (by decide) (by decide) (by decide) (by decide)
  simpa [run_units, execute_single_action, a_unknown, a_ad] using h

/-- Claim C9: a candidate with revenue 750 (resp. 1200) under the default
configuration (threshold 500, max spend 1000) gets an ad-spend action
with budget 225 (resp. 360) and expected increase 375 (resp. 600), plus
the always-appended price-optimization action. -/
theorem c9_scenario : ∀ (m₇ m₁₂ : Metrics),
    m₇.current_revenue = 750 → m₁₂.current_revenue = 1200 →
    (({ type := "ad_spend_increase", multiplier := 3/2, budget := 225,
        expected_increase := 375 } : Action) ∈
          (generate_scaling_strategy default_config m₇).actions
      ∧ ∃ a ∈ (generate_scaling_strategy default_config m₇).actions,
          a.type = "price_optimization")
    ∧ (({ type := "ad_spend_increase", multiplier := 3/2, budget := 360,
          expected_increase := 600 } : Action) ∈
          (generate_scaling_strategy default_config m₁₂).actions
      ∧ ∃ a ∈ (generate_scaling_strategy default_config m₁₂).actions,
          a.type = "price_optimization") := by
  intro m₇ m₁₂ h7 h12
  refine ⟨⟨?_, ?_⟩, ?_, ?_⟩
  · norm_num [generate_scaling_strategy, default_config, h7, min_def, List.mem_append]
  · exact ⟨{ type := "price_optimization", multiplier := 13/10,
             budget := m₇.current_revenue * (1/10),
             expected_increase := m₇.current_revenue * (3/10) },
      by simp [generate_scaling_strategy, List.mem_append], rfl⟩
  · norm_num [generate_scaling_strategy, default_config, h12, min_def, List.mem_append]
  · exact ⟨{ type := "price_optimization", multiplier := 13/10,
             budget := m₁₂.current_revenue * (1/10),
             expected_increase := m₁₂.current_revenue * (3/10) },
      by simp [generate_scaling_strategy, List.mem_append], rfl⟩

/-- Claim C10: every candidate the scorer returns carries an opportunity
score of at least 0.8 — lower-scoring candidates are dropped before the
sort and the truncation. -/
theorem c10_confidence_threshold : ∀ (cfg : Config) (ps : List Product)
    (c : RankedCandidate),
    c ∈ analyze_scaling_opportunities cfg ps → (4/5 : ℚ) ≤ c.opportunity_score := by
  intro cfg ps c hc
  have h1 : c ∈ (qualifying cfg ps).insertionSort rank_ge :=
    List.mem_of_mem_take hc
  have h2 : c ∈ qualifying cfg ps := (List.mem_insertionSort rank_ge).mp h1
  obtain ⟨p, -, hp⟩ := List.mem_filterMap.mp h2
  simp only [candidate_of] at hp
  split_ifs at hp with hsc
  cases hp
  exact hsc

/-- The engine's output on the singleton strong product: used to witness
C10 on a concrete run. -/
theorem analyze_p_hi :
    analyze_scaling_opportunities default_config [p_hi] = [c_hi] := by
  norm_num [analyze_scaling_opportunities, qualifying, candidate_of,
    calculate_product_metrics, calculate_opportunity_score,
    generate_scaling_strategy, estimate_roi,
    p_hi, c_hi, m_hi, strat_hi, default_config, min_def, max_def,
    List.insertionSort, List.orderedInsert, List.filterMap_cons]
  all_goals simp only [String.reduceEq, reduceIte]
  all_goals norm_num

/-- Witness for C10 at a concrete input. -/
theorem c10_witness : (4/5 : ℚ) ≤ c_hi.opportunity_score :=
  c10_confidence_threshold default_config [p_hi] c_hi
    (by rw [analyze_p_hi]; exact List.mem_singleton_self c_hi)

/-- Counterexample to Claim C4 as stated: two candidates, a concurrency
cap of 1 < 2, yet the scorer returns zero ranked candidates, because both
score 0.2975 and are removed by the 0.8 confidence filter before
truncation. -/
theorem c4_counterexample :
    analyze_scaling_opportunities
        { revenue_threshold := 500, growth_rate_threshold := 20
          conversion_threshold := 2, max_concurrent_scales := 1
          max_ad_spend := 1000 } [p_low, p_low2] = []
    ∧ [p_low, p_low2].length = 2 := by
  refine ⟨?_, rfl⟩
  norm_num [analyze_scaling_opportunities, qualifying, candidate_of,
    calculate_product_metrics, calculate_opportunity_score,
    p_low, p_low2, min_def, max_def,
    List.insertionSort, List.filterMap_cons]

/-- Claim C4 (amended): the scorer returns exactly
`min max_concurrent_scales Q` candidates, where `Q` counts the candidates
passing the 0.8 confidence filter; the output is sorted descending by
`score × ROI`; it consists of top-ranked qualifying candidates (every
dropped qualifying candidate ranks no higher than every returned one);
and the empty input yields the empty output. -/
theorem c4_truncation : ∀ (cfg : Config) (ps : List Product),
    (analyze_scaling_opportunities cfg ps).length =
        min cfg.max_concurrent_scales (qualifying cfg ps).length
    ∧ List.Sorted rank_ge (analyze_scaling_opportunities cfg ps)
    ∧ (∃ rest, (analyze_scaling_opportunities cfg ps ++ rest).Perm (qualifying cfg ps)
        ∧ ∀ b ∈ rest, ∀ a ∈ analyze_scaling_opportunities cfg ps,
            rank_key b ≤ rank_key a)
    ∧ (ps = [] → analyze_scaling_opportunities cfg ps = []) := by
  intro cfg ps
  have hperm : ((qualifying cfg ps).insertionSort rank_ge).Perm (qualifying cfg ps) :=
    List.perm_insertionSort rank_ge (qualifying cfg ps)
  have hsort : List.Sorted rank_ge ((qualifying cfg ps).insertionSort rank_ge) :=
    List.sorted_insertionSort rank_ge (qualifying cfg ps)
  simp only [analyze_scaling_opportunities]
  refine ⟨?_, ?_, ?_, ?_⟩
  · rw [List.length_take, hperm.length_eq]
  · exact hsort.sublist
      (List.take_sublist cfg.max_concurrent_scales _)
  · refine ⟨((qualifying cfg ps).insertionSort rank_ge).drop cfg.max_concurrent_scales,
      ?_, ?_⟩
    · rw [List.take_append_drop]
      exact hperm
    · intro b hb a ha
      exact hsort.rel_of_mem_take_of_mem_drop ha hb
  · intro h
    subst h
    simp [qualifying]

/-- Witness for C4 (amended) at a concrete input. -/
theorem c4_witness :
    analyze_scaling_opportunities default_config [] = [] :=
  (c4_truncation default_config []).2.2.2 rfl

/-- Witness for C9 at concrete metric sets. -/
theorem c9_witness :
    (({ type := "ad_spend_increase", multiplier := 3/2, budget := 225,
        expected_increase := 375 } : Action) ∈
          (generate_scaling_strategy default_config
            { current_revenue := 750, growth_rate := 0, conversion_rate := 0,
              traffic_volume := 0, profit_margin := 0,
              customer_acquisition_cost := 0, lifetime_value := 0 }).actions)
    ∧ (({ type := "ad_spend_increase", multiplier := 3/2, budget := 360,
          expected_increase := 600 } : Action) ∈
          (generate_scaling_strategy default_config
            { current_revenue := 1200, growth_rate := 0, conversion_rate := 0,
              traffic_volume := 0, profit_margin := 0,
              customer_acquisition_cost := 0, lifetime_value := 0 }).actions) := by
  have h := c9_scenario
    { current_revenue := 750, growth_rate := 0, conversion_rate := 0,
      traffic_volume := 0, profit_margin := 0,
      customer_acquisition_cost := 0, lifetime_value := 0 }
    { current_revenue := 1200, growth_rate := 0, conversion_rate := 0,
      traffic_volume := 0, profit_margin := 0,
      customer_acquisition_cost := 0, lifetime_value := 0 }
    rfl rfl
  exact ⟨h.1.1, h.2.1⟩


/-- Executed-count invariant of the result-processing loop (lines
308-315): every dict outcome increments `executed_actions`, whatever its
status. -/
theorem foldl_exec : ∀ (rs : List UnitOutcome) (acc : ExecReport),
    (rs.foldl process_one acc).executed_actions =
      acc.executed_actions + rs.countP is_ok := by
  intro rs
  induction rs with
  | nil => intro acc; simp
  | cons r rs ih =>
      intro acc
      cases r <;> simp [process_one, ih, is_ok, List.countP_cons] <;> omega

/-- Failed-count invariant of the loop: only exception outcomes increment
`failed_actions`. -/
theorem foldl_failed : ∀ (rs : List UnitOutcome) (acc : ExecReport),
    (rs.foldl process_one acc).failed_actions =
      acc.failed_actions + rs.countP (fun r => ! is_ok r) := by
  intro rs
  induction rs with
  | nil => intro acc; simp
  | cons r rs ih =>
      intro acc
      cases r <;> simp [process_one, ih, is_ok, List.countP_cons] <;> omega

/-- Investment-total invariant of the loop: every dict outcome adds its
`investment` to the total. -/
theorem foldl_inv : ∀ (rs : List UnitOutcome) (acc : ExecReport),
    (rs.foldl process_one acc).total_investment =
      acc.total_investment + (rs.map investment_of).sum := by
  intro rs
  induction rs with
  | nil => intro acc; simp
  | cons r rs ih =>
      intro acc
      cases r <;> simp [process_one, ih, investment_of] <;> ring

/-- Return-total invariant of the loop: every dict outcome adds its
`expected_return` to the total. -/
theorem foldl_ret : ∀ (rs : List UnitOutcome) (acc : ExecReport),
    (rs.foldl process_one acc).expected_return =
      acc.expected_return + (rs.map return_of).sum := by
  intro rs
  induction rs with
  | nil => intro acc; simp
  | cons r rs ih =>
      intro acc
      cases r <;> simp [process_one, ih, return_of] <;> ring

/-- The loop never touches `success_rate`. -/
theorem foldl_rate : ∀ (rs : List UnitOutcome) (acc : ExecReport),
    (rs.foldl process_one acc).success_rate = acc.success_rate := by
  intro rs
  induction rs with
  | nil => intro acc; simp
  | cons r rs ih =>
      intro acc
      cases r <;> simp [process_one, ih]

/-- Closed form of `process_results` (lines 279-320). -/
theorem process_results_spec : ∀ (rs : List UnitOutcome),
    process_results rs =
      { executed_actions := rs.countP is_ok
        total_investment := (rs.map investment_of).sum
        expected_return := (rs.map return_of).sum
        failed_actions := rs.countP (fun r => ! is_ok r)
        success_rate :=
          if 0 < rs.length then ((rs.countP is_ok : ℕ) : ℚ) / (rs.length : ℚ) * 100
          else 0 } := by
  intro rs
  unfold process_results
  split_ifs with h
  · simp [h, foldl_exec, foldl_failed, foldl_inv, foldl_ret, foldl_rate]
  · have h0 : rs = [] := List.length_eq_zero.mp (by omega)
    subst h0
    simp [process_one]

/-- How many replicated outcomes satisfy a predicate. -/
theorem countP_replicate (n : ℕ) (a : UnitOutcome) (p : UnitOutcome → Bool) :
    (List.replicate n a).countP p = if p a then n else 0 := by
  induction n with
  | zero => simp
  | succ n ih =>
      simp [List.replicate_succ, List.countP_cons, ih]
      split_ifs <;> omega

/-- Counterexample to Claim C2 as stated: a batch whose single unit has an
unrecognised action kind.  Its result dict has status `unknown_action`,
yet the loop counts it as executed (1, not 0), reports no failure (0, not
1) and a 100% success rate (not 0%), because the loop only distinguishes
exceptions from dicts, never statuses. -/
theorem c2_counterexample :
    (execute_scaling_actions false [c_bad]).executed_actions = 1
    ∧ (execute_scaling_actions false [c_bad]).failed_actions = 0
    ∧ (action_results false [c_bad]).countP is_success = 0
    ∧ (execute_scaling_actions false [c_bad]).success_rate = 100 := by
  have har : action_results false [c_bad] =
      [UnitOutcome.ok { investment := 0, expected_return := 0,
                        action_type := some "quantum_leap",
                        status := "unknown_action" }] := by
    simp [action_results, run_units, batch_tasks, execute_single_action,
      c_bad, a_unknown, List.flatMap_cons]
  refine ⟨?_, ?_, ?_, ?_⟩ <;>
    simp [execute_scaling_actions, process_results_spec, har, is_ok, is_success]

/-- Claim C2 (amended): in the report of `execute_scaling_actions`,
`executed_actions` counts the unit results that are dicts (any status —
success, failed, timeout or unknown_action alike), `failed_actions`
counts only results that are raised exceptions, the investment/return
totals sum over all dict results, and
`success_rate = executed / total × 100` (0 for an empty batch) with that
exception-based `executed` count. -/
theorem c2_aggregation : ∀ (t : Bool) (cs : List RankedCandidate),
    (execute_scaling_actions t cs).executed_actions =
        (action_results t cs).countP is_ok
    ∧ (execute_scaling_actions t cs).failed_actions =
        (action_results t cs).countP (fun r => ! is_ok r)
    ∧ (execute_scaling_actions t cs).total_investment =
        ((action_results t cs).map investment_of).sum
    ∧ (execute_scaling_actions t cs).expected_return =
        ((action_results t cs).map return_of).sum
    ∧ (execute_scaling_actions t cs).success_rate =
        (if 0 < (action_results t cs).length then
          (((action_results t cs).countP is_ok : ℕ) : ℚ) /
            (((action_results t cs).length : ℕ) : ℚ) * 100
         else 0) := by
  intro t cs
  simp [execute_scaling_actions, process_results_spec]

/-- Counterexample to Claim C1 as stated: a timed-out batch of four units
that (absent the deadline) would all complete with a combined investment
of 500.  When the deadline fires, the source replaces every result —
completed or not — with the timeout dict, so the aggregate investment is
0, not 500: completed units do NOT keep their real results. -/
theorem c1_counterexample :
    action_results true [c_hi] = List.replicate 4 (UnitOutcome.ok timeout_result)
    ∧ (execute_scaling_actions true [c_hi]).total_investment = 0
    ∧ (execute_scaling_actions false [c_hi]).total_investment = 500 := by
  refine ⟨rfl, ?_, ?_⟩
  · simp [execute_scaling_actions, process_results_spec,
      show action_results true [c_hi] =
          List.replicate 4 (UnitOutcome.ok timeout_result) from rfl,
      List.map_replicate, List.sum_replicate, investment_of, timeout_result]
  · have har : action_results false [c_hi] =
        (run_units (batch_tasks [c_hi])).map UnitOutcome.ok := rfl
    rw [execute_scaling_actions, process_results_spec, har]
    norm_num [run_units, batch_tasks, execute_single_action, c_hi, strat_hi,
      p_hi, investment_of, List.flatMap_cons]
    all_goals simp only [String.reduceEq, reduceIte]
    all_goals norm_num

/-- Claim C1 (amended): when the shared 30-second deadline fires, the
source substitutes one timeout dict (`status = timeout`,
`investment = 0`, `expected_return = 0`) for EVERY unit — completed units
included, their real results are discarded — so the report aggregates to
zero investment and zero return, counts every unit as executed (timeout
dicts are not exceptions) and shows a 100% success rate for any nonempty
batch. -/
theorem c1_timeout_discards_all : ∀ (cs : List RankedCandidate),
    action_results true cs =
        List.replicate (batch_tasks cs).length (UnitOutcome.ok timeout_result)
    ∧ (execute_scaling_actions true cs).total_investment = 0
    ∧ (execute_scaling_actions true cs).expected_return = 0
    ∧ (execute_scaling_actions true cs).executed_actions = (batch_tasks cs).length
    ∧ (execute_scaling_actions true cs).failed_actions = 0
    ∧ (0 < (batch_tasks cs).length →
        (execute_scaling_actions true cs).success_rate = 100) := by
  intro cs
  have har : action_results true cs =
      List.replicate (batch_tasks cs).length (UnitOutcome.ok timeout_result) := rfl
  refine ⟨har, ?_, ?_, ?_, ?_, ?_⟩
  · rw [execute_scaling_actions, process_results_spec, har]
    simp [List.map_replicate, List.sum_replicate, investment_of, timeout_result]
  · rw [execute_scaling_actions, process_results_spec, har]
    simp [List.map_replicate, List.sum_replicate, return_of, timeout_result]
  · rw [execute_scaling_actions, process_results_spec, har]
    simp [countP_replicate, is_ok]
  · rw [execute_scaling_actions, process_results_spec, har]
    simp [countP_replicate, is_ok]
  · intro hn
    have hne : ((batch_tasks cs).length : ℚ) ≠ 0 := by
      exact_mod_cast Nat.pos_iff_ne_zero.mp hn
    rw [execute_scaling_actions, process_results_spec, har]
    simp [countP_replicate, is_ok, hn, div_self hne]

/-- Witness for C1 (amended) at a concrete input. -/
theorem c1_witness :
    (execute_scaling_actions true [c_hi]).executed_actions = 4
    ∧ (execute_scaling_actions true [c_hi]).success_rate = 100 := by
  have h := c1_timeout_discards_all [c_hi]
  have hlen : (batch_tasks [c_hi]).length = 4 := rfl
  refine ⟨?_, ?_⟩
  · rw [h.2.2.2.1, hlen]
  · exact h.2.2.2.2.2 (by rw [hlen]; norm_num)

end GodmodeScaling
